import Mathlib

/-!
Shallow embedding of the chetap-print-client device agent
(`device_client.py`, `device_gui.py`) and proofs about its
connection/command/job lifecycle and session handling.

Side-effecting Python code is embedded as pure functions from an
abstract environment (network results, filesystem outcome, platform
printing capability) to the list of externally visible actions the
handler performs, in order.
-/

namespace ChetapPrint

/-- Python truthiness of an optional string (`None` and `""` are falsy). -/
def truthyS : Option String → Bool
  | some s => s ≠ ""
  | none => false

/-- Python `a or b` on optional strings: returns `a` when truthy, else `b`. -/
def pyOr (a b : Option String) : Option String :=
  if truthyS a then a else b

/-- Python `a or d` where `d` is a mandatory string fallback. -/
def pyOrD (a : Option String) (d : String) : String :=
  match a with
  | some s => if s = "" then d else s
  | none => d

/-- Result of `requests.get(url)` (plus `raise_for_status` where the source
calls it): `ok` carries the response body bytes, `err` models any raised
exception (connection failure, timeout, bad HTTP status). -/
inductive FetchResult
  | ok (content : List Nat)
  | err (e : String)
deriving DecidableEq

/-- A parsed inbound JSON command object, as the handlers read it via
`data.get("command") / .get("job_id") / .get("url")`: each field is `none`
when absent (or JSON null). -/
structure JobMsg where
  command : Option String
  job_id : Option String
  url : Option String
deriving DecidableEq

/-- Outcome of `json.loads` on an inbound MQTT payload. -/
inductive ParseResult
  | malformed
  | parsed (j : JobMsg)
deriving DecidableEq

/-- The externally visible actions a handler performs, in program order. -/
inductive Action
  | subscribe (topic : String)
  | fetchAttempt (url : Option String)
  | save (path : String) (content : List Nat)
  | dispatch (jobId : String) (ok : Option Bool)
  | publish (topic : String) (jobId : String) (status : String) (ts : Nat)
  | spawnJob (j : JobMsg)
  | logEvt (s : String)
deriving DecidableEq

/-- Abstract runtime environment for a handler invocation. -/
structure Env where
  /-- Result of `requests.get` on a given url. -/
  fetch : Option String → FetchResult
  /-- Whether writing the downloaded bytes to disk succeeds. -/
  saveOk : Bool
  /-- Platform print outcome: `none` = no system printing available,
  `some b` = a local print was attempted and succeeded iff `b`.
  In the source this only affects log lines, never control flow. -/
  dispatchResult : Option Bool
  /-- `tempfile.gettempdir()`. -/
  tempdir : String
  /-- `int(time.time())`. -/
  nowTs : Nat

/-- `f"devices/{device_uuid}/commands"`. -/
def commandTopic (uuid : String) : String := "devices/" ++ uuid ++ "/commands"

/-- `f"devices/{device_uuid}/logs"`. -/
def logsTopic (uuid : String) : String := "devices/" ++ uuid ++ "/logs"

/-- POSIX `os.path.join a b`: if `b` is absolute it replaces `a`, else the
parts are joined with a single separator. -/
def osPathJoin (a b : String) : String :=
  if b.data.head? = some '/' then b
  else if a.data.getLast? = some '/' then a ++ b
  else a ++ "/" ++ b

/-- Count the actions satisfying `p`. -/
def countP (p : Action → Bool) (as : List Action) : Nat :=
  (as.filter p).length

/-- The action is a `spawnJob` whose message carries this exact `job_id`. -/
def isSpawnOf (jid : String) : Action → Bool
  | .spawnJob j => j.job_id = some jid
  | _ => false

/-- The action is a status publish for this job id with this status. -/
def isPublishOf (jid status : String) : Action → Bool
  | .publish _ j s _ => j = jid && s = status
  | _ => false

/-- The action is any status publish at all. -/
def isAnyPublish : Action → Bool
  | .publish _ _ _ _ => true
  | _ => false

/-- The action is a download attempt. -/
def isFetchAttempt : Action → Bool
  | .fetchAttempt _ => true
  | _ => false

namespace DeviceGui

/-- The GUI's MQTT-related mutable state: `self.mqtt_connected` and whether
`self.mqtt_client` has been assigned (is non-`None`). -/
structure GuiState where
  mqtt_connected : Bool
  hasClient : Bool
deriving DecidableEq

/-- `DeviceGUI._handle_print_job`: extract `url` and `job_id` (with the
`or f"job_{int(time.time())}"` fallback), download with one `requests.get`
plus `raise_for_status` (returning on any exception), save to
`os.path.join(tempfile.gettempdir(), f"{job_id}.bin")` (returning on
failure), run the platform print section (logs only), then publish a
`completed` status on the logs topic iff `self.mqtt_client and
self.mqtt_connected` holds when the guard is evaluated. -/
def handle_print_job (env : Env) (uuid : String) (st : GuiState) (j : JobMsg) :
    List Action :=
  let url := j.url
  let job_id := pyOrD j.job_id ("job_" ++ toString env.nowTs)
  let a0 := [Action.logEvt ("Starting print job " ++ job_id)]
  match env.fetch url with
  | .err e => a0 ++ [Action.fetchAttempt url, Action.logEvt ("Download failed: " ++ e)]
  | .ok content =>
    let a1 := a0 ++ [Action.fetchAttempt url]
    let tmpfd := osPathJoin env.tempdir (job_id ++ ".bin")
    if env.saveOk then
      let a2 := a1 ++ [Action.save tmpfd content]
      let a3 := a2 ++ [Action.dispatch job_id env.dispatchResult]
      if st.hasClient && st.mqtt_connected then
        a3 ++ [Action.publish (logsTopic uuid) job_id "completed" env.nowTs,
               Action.logEvt "Published completion to MQTT logs"]
      else a3
    else a1 ++ [Action.logEvt "Failed to save job"]

/-- `DeviceGUI._on_mqtt_message`: log the raw message, try to parse JSON
(logging and returning on failure), and when `job.get("command") == "print"`
spawn a thread running `_handle_print_job` — with no validation of
`job_id` or `url`. Any other (or absent) command is ignored with no reply. -/
def on_mqtt_message (p : ParseResult) : List Action :=
  Action.logEvt "MQTT msg" ::
  match p with
  | .malformed => [Action.logEvt "Failed to parse MQTT payload as JSON"]
  | .parsed j => if j.command = some "print" then [Action.spawnJob j] else []

/-- `_on_mqtt_message` together with the spawned `_handle_print_job` run:
each `spawnJob` action is expanded into the handler's own actions. -/
def processMessage (env : Env) (uuid : String) (st : GuiState)
    (p : ParseResult) : List Action :=
  (on_mqtt_message p).flatMap fun a =>
    match a with
    | .spawnJob j => Action.spawnJob j :: handle_print_job env uuid st j
    | a => [a]

/-- Processing of a sequence of inbound messages. The handlers keep no
per-message state (there is no dedupe or in-flight table in the source),
so each message is processed independently. -/
def processMessages (env : Env) (uuid : String) (st : GuiState)
    (ps : List ParseResult) : List Action :=
  ps.flatMap (processMessage env uuid st)

/-- Events delivered by the MQTT client loop to the GUI's callbacks. -/
inductive Event
  | connect
  | disconnect
  | message (p : ParseResult)

/-- One callback invocation: `_on_mqtt_connect` sets `mqtt_connected`,
logs, and unconditionally subscribes to the command topic;
`_on_mqtt_disconnect` clears `mqtt_connected`; a message runs
`_on_mqtt_message` (and its spawned job). -/
def handleEvent (env : Env) (uuid : String) (st : GuiState) :
    Event → GuiState × List Action
  | .connect =>
      ({ st with mqtt_connected := true, hasClient := true },
       [Action.logEvt "MQTT connected", Action.subscribe (commandTopic uuid),
        Action.logEvt "Subscribed"])
  | .disconnect =>
      ({ st with mqtt_connected := false }, [Action.logEvt "MQTT disconnected"])
  | .message p => (st, processMessage env uuid st p)

/-- All actions performed over a sequence of client-loop events, in order. -/
def runEvents (env : Env) (uuid : String) : GuiState → List Event → List Action
  | _, [] => []
  | st, e :: es =>
    let r := handleEvent env uuid st e
    r.2 ++ runEvents env uuid r.1 es

/-- The GUI state after a sequence of client-loop events. -/
def stateAfter (env : Env) (uuid : String) : GuiState → List Event → GuiState
  | st, [] => st
  | st, e :: es => stateAfter env uuid (handleEvent env uuid st e).1 es

/-- The optional string fields `request_session_qr` reads from a parsed
200-response JSON object (each `none` when the key is absent). -/
structure SessFields where
  upload_url : Option String
  uploadUrl : Option String
  qr_base64 : Option String
  qr : Option String
  token : Option String
  session_token : Option String
deriving DecidableEq

/-- Outcome of the `requests.post` in `request_session_qr`: a raised
exception, or a response with a status code and (when the body is valid
JSON) a parsed field object. -/
inductive HttpResult
  | netErr (e : String)
  | resp (status : Nat) (validJson : Option SessFields)
deriving DecidableEq

/-- The GUI's stored session: `self.current_upload_url` and
`self.last_session_token`. -/
structure SessState where
  current_upload_url : Option String
  last_session_token : Option String
deriving DecidableEq

/-- Result of one `request_session_qr` call: the session state afterwards
and the effective base64 QR value selected for display (if any). -/
structure SessOutcome where
  st : SessState
  qrUsed : Option String
deriving DecidableEq

/-- Python `s.rstrip("/")`: drop all trailing slashes. -/
def rstripSlash (s : String) : String :=
  String.mk ((s.data.reverse.dropWhile (· = '/')).reverse)

/-- `DeviceGUI.request_session_qr` (the response-handling part): return
with the state unchanged on a request exception, a non-200 status, or a
JSON parse failure; otherwise read `upload_url or uploadUrl or upload_url`,
`qr_base64 or qr`, `token or session_token`, store
`upload_url or (API.rstrip("/") + "/session_upload?token=" + token if token
else None)` as the upload URL and `token` as the session token. The
requested `lifetime` is only sent in the request body; nothing about it
(nor any issuance time) is stored. -/
def request_session_qr (apiRaw : String) (res : HttpResult) (st : SessState) :
    SessOutcome :=
  match res with
  | .netErr _ => ⟨st, none⟩
  | .resp status body =>
    if status ≠ 200 then ⟨st, none⟩
    else
      match body with
      | none => ⟨st, none⟩
      | some j =>
        let upload_url := pyOr (pyOr j.upload_url j.uploadUrl) j.upload_url
        let qr_b64 := pyOr j.qr_base64 j.qr
        let token := pyOr j.token j.session_token
        let cur :=
          if truthyS upload_url then upload_url
          else if truthyS token then
            some (rstripSlash apiRaw ++ "/session_upload?token=" ++ token.getD "")
          else none
        ⟨⟨cur, token⟩, qr_b64⟩

/-- Reading the held session in the GUI (`copy_upload_url`, any later use
of `self.last_session_token`) is a plain field access: the source records
no issuance time and makes no expiry check, so the value observed at
wall-clock time `t` does not depend on `t`. -/
def currentSessionAt (st : SessState) (_t : Nat) : Option String × Option String :=
  (st.current_upload_url, st.last_session_token)

/-- `MQTT_RECONNECT_INTERVAL = 5` (device_gui.py, line 54). -/
def MQTT_RECONNECT_INTERVAL : Nat := 5

/-- The delay `_mqtt_connect_loop` sleeps after its n-th consecutive
connection failure: the `except` branch always sleeps the constant
`MQTT_RECONNECT_INTERVAL`, independent of how many failures preceded. -/
def reconnectDelay (_failures : Nat) : Nat := MQTT_RECONNECT_INTERVAL

end DeviceGui

namespace DeviceClient

/-- `device_client.py on_connect`: print, then unconditionally subscribe to
the command topic. -/
def on_connect (uuid : String) : List Action :=
  [Action.logEvt "connected", Action.subscribe (commandTopic uuid)]

/-- `device_client.py on_message` after a successful JSON parse: when
`data.get("command") == "print"`, download `url` with a bare
`requests.get` (an exception aborts the handler), write the body to
`job + ".bin"` (a `TypeError` aborts it when `job_id` is absent), then
publish a `completed` status. -/
def on_message (env : Env) (uuid : String) (j : JobMsg) : List Action :=
  if j.command = some "print" then
    match env.fetch j.url with
    | .err _ => [Action.fetchAttempt j.url]
    | .ok content =>
      match j.job_id with
      | none => [Action.fetchAttempt j.url]
      | some job =>
        [Action.fetchAttempt j.url, Action.save (job ++ ".bin") content,
         Action.publish (logsTopic uuid) job "completed" env.nowTs]
  else []

end DeviceClient

open DeviceGui

/-- A concrete environment: every download succeeds with body `[7]`, the
file save succeeds, no system printing is available. -/
def envOk : Env := ⟨fun _ => FetchResult.ok [7], true, none, "/tmp", 42⟩

/-- A concrete environment where every download raises. -/
def envFail : Env := ⟨fun _ => FetchResult.err "boom", true, none, "/tmp", 42⟩

/-- A concrete environment where download and save succeed but the local
print attempt fails. -/
def envSinkFail : Env := ⟨fun _ => FetchResult.ok [7], true, some false, "/tmp", 42⟩

/-- A connected GUI state with an assigned MQTT client. -/
def stConn : GuiState := ⟨true, true⟩

/-- A disconnected GUI state with an assigned MQTT client. -/
def stDisc : GuiState := ⟨false, true⟩

/-- A well-formed print command for job `j1`. -/
def msgJ1 : JobMsg := ⟨some "print", some "j1", some "http://x/doc.pdf"⟩

lemma countP_append (p : Action → Bool) (a b : List Action) :
    countP p (a ++ b) = countP p a + countP p b := by
  simp [countP, List.filter_append]

lemma countP_cons (p : Action → Bool) (a : Action) (as : List Action) :
    countP p (a :: as) = (if p a then 1 else 0) + countP p as := by
  by_cases hpa : p a <;> simp [countP, List.filter_cons, hpa, Nat.add_comm]

/-- `_handle_print_job` never spawns further jobs. -/
lemma handle_print_job_spawn_count (env : Env) (uuid : String) (st : GuiState)
    (j : JobMsg) (jid : String) :
    countP (isSpawnOf jid) (handle_print_job env uuid st j) = 0 := by
  simp only [handle_print_job]
  cases hf : env.fetch j.url with
  | ok c => split_ifs <;> simp [countP, isSpawnOf, List.filter_append]
  | err e => simp [countP, isSpawnOf]

/-- On the all-success path, `_handle_print_job` publishes exactly one
status message, for this job id, with status `completed`, whatever the
local print outcome was. -/
lemma handle_print_job_publish_complete (env : Env) (uuid : String)
    (st : GuiState) (j : JobMsg) (jid : String) (content : List Nat)
    (hid : j.job_id = some jid) (hne : jid ≠ "")
    (hfetch : env.fetch j.url = FetchResult.ok content)
    (hsave : env.saveOk = true) (hc : st.hasClient = true)
    (hm : st.mqtt_connected = true) :
    countP (isPublishOf jid "completed") (handle_print_job env uuid st j) = 1 ∧
    countP isAnyPublish (handle_print_job env uuid st j) = 1 := by
  simp only [handle_print_job]
  rw [hfetch]
  simp [pyOrD, hid, hne, hsave, hc, hm, countP, List.filter_append,
    isPublishOf, isAnyPublish]

/-- When the download raises, `_handle_print_job` performs exactly one
download attempt and publishes nothing. -/
lemma handle_print_job_fetch_err (env : Env) (uuid : String) (st : GuiState)
    (j : JobMsg) (e : String) (hfetch : env.fetch j.url = FetchResult.err e) :
    countP isFetchAttempt (handle_print_job env uuid st j) = 1 ∧
    countP isAnyPublish (handle_print_job env uuid st j) = 0 := by
  simp only [handle_print_job]
  rw [hfetch]
  simp [countP, isFetchAttempt, isAnyPublish]

/-- When the file save fails, `_handle_print_job` publishes nothing. -/
lemma handle_print_job_save_err (env : Env) (uuid : String) (st : GuiState)
    (j : JobMsg) (content : List Nat)
    (hfetch : env.fetch j.url = FetchResult.ok content)
    (hsave : env.saveOk = false) :
    countP isAnyPublish (handle_print_job env uuid st j) = 0 := by
  simp only [handle_print_job]
  rw [hfetch]
  simp [hsave, countP, List.filter_append, isAnyPublish]

/-- While `mqtt_connected` is false, `_handle_print_job` publishes
nothing. -/
lemma handle_print_job_disconnected (env : Env) (uuid : String)
    (st : GuiState) (j : JobMsg) (hm : st.mqtt_connected = false) :
    countP isAnyPublish (handle_print_job env uuid st j) = 0 := by
  simp only [handle_print_job]
  cases hf : env.fetch j.url with
  | ok c => split_ifs <;> simp_all [countP, List.filter_append, isAnyPublish]
  | err e => simp [countP, isAnyPublish]

/-- The action list of a message recognized as a print command. -/
lemma processMessage_print (env : Env) (uuid : String) (st : GuiState)
    (j : JobMsg) (hcmd : j.command = some "print") :
    processMessage env uuid st (ParseResult.parsed j) =
      Action.logEvt "MQTT msg" :: Action.spawnJob j ::
        handle_print_job env uuid st j := by
  simp [processMessage, on_mqtt_message, hcmd]

/-- C1: on every transition into the Connected state, the agent re-issues
the subscription to `devices/{id}/commands` before any inbound message of
that connection period is processed: over any event trace, the actions
emitted at a `connect` event always include the subscribe, and they precede
(in the global action order) every action of the remainder of the trace —
in particular all message handling of that connection period. The bare
client's `on_connect` likewise subscribes unconditionally. -/
theorem connect_resubscribes_first (env : Env) (uuid : String) (st : GuiState)
    (pre rest : List Event) :
    (runEvents env uuid st (pre ++ Event.connect :: rest) =
      runEvents env uuid st pre ++
        Action.logEvt "MQTT connected" :: Action.subscribe (commandTopic uuid) ::
        Action.logEvt "Subscribed" ::
        runEvents env uuid
          { stateAfter env uuid st pre with mqtt_connected := true, hasClient := true }
          rest) ∧
    DeviceClient.on_connect uuid =
      [Action.logEvt "connected", Action.subscribe (commandTopic uuid)] := by
  refine ⟨?_, rfl⟩
  induction pre generalizing st with
  | nil => simp [runEvents, handleEvent, stateAfter]
  | cons e es ih =>
    simp only [List.cons_append, runEvents, stateAfter, List.append_eq]
    rw [ih]
    simp

/-- C2 fails on the code: there is no in-flight or dedupe table, so two
print commands with the same `job_id` (`j1`), received while connected with
every download succeeding, cause two executions and two terminal status
publishes — not one of each as the claim states. -/
theorem duplicate_job_id_reexecuted_cex :
    countP (isSpawnOf "j1")
      (processMessages envOk "d" stConn
        [ParseResult.parsed msgJ1, ParseResult.parsed msgJ1]) = 2 ∧
    countP (isPublishOf "j1" "completed")
      (processMessages envOk "d" stConn
        [ParseResult.parsed msgJ1, ParseResult.parsed msgJ1]) = 2 := by
  exact ⟨rfl, rfl⟩

/-- C2 amended: the agent keeps no per-`job_id` in-flight or retention
state; message handling is stateless, so a repeated `job_id` is re-executed
every time: two print commands with the same `job_id` cause exactly two
executions, and — when download and save succeed while connected — exactly
two terminal status publishes. -/
theorem no_dedup_per_job_id (env : Env) (uuid : String) (st : GuiState)
    (j : JobMsg) (jid : String) (content : List Nat)
    (hcmd : j.command = some "print") (hid : j.job_id = some jid)
    (hne : jid ≠ "") :
    countP (isSpawnOf jid)
      (processMessages env uuid st
        [ParseResult.parsed j, ParseResult.parsed j]) = 2 ∧
    (env.fetch j.url = FetchResult.ok content → env.saveOk = true →
      st.hasClient = true → st.mqtt_connected = true →
      countP (isPublishOf jid "completed")
        (processMessages env uuid st
          [ParseResult.parsed j, ParseResult.parsed j]) = 2) := by
  have hm2 : processMessages env uuid st
      [ParseResult.parsed j, ParseResult.parsed j] =
      processMessage env uuid st (ParseResult.parsed j) ++
        processMessage env uuid st (ParseResult.parsed j) := by
    simp [processMessages]
  constructor
  · rw [hm2, countP_append, processMessage_print env uuid st j hcmd,
      countP_cons, countP_cons, handle_print_job_spawn_count]
    simp [isSpawnOf, hid]
  · intro hfetch hsave hc hm
    rw [hm2, countP_append, processMessage_print env uuid st j hcmd,
      countP_cons, countP_cons,
      (handle_print_job_publish_complete env uuid st j jid content hid hne
        hfetch hsave hc hm).1]
    simp [isPublishOf, isSpawnOf]

/-- Witness for the amended C2 at a concrete duplicated command. -/
theorem no_dedup_per_job_id_witness :
    countP (isSpawnOf "j1")
      (processMessages envOk "dev" stConn
        [ParseResult.parsed msgJ1, ParseResult.parsed msgJ1]) = 2 ∧
    countP (isPublishOf "j1" "completed")
      (processMessages envOk "dev" stConn
        [ParseResult.parsed msgJ1, ParseResult.parsed msgJ1]) = 2 := by
  have h := no_dedup_per_job_id envOk "dev" stConn msgJ1 "j1" [7] rfl rfl
    (by decide)
  exact ⟨h.1, h.2 rfl rfl rfl rfl⟩

/-- C3 fails on the code in both directions: a valid print command whose
download always fails produces no status publish at all (the failure is
silently dropped, never reported as `failed`); and a job whose local print
attempt fails is still published as `completed`. -/
theorem failed_job_unreported_cex :
    countP isAnyPublish
      (processMessage envFail "d" stConn (ParseResult.parsed msgJ1)) = 0 ∧
    countP (isPublishOf "j1" "completed")
      (processMessage envSinkFail "d" stConn (ParseResult.parsed msgJ1)) = 1 := by
  exact ⟨rfl, rfl⟩

/-- C3 amended: for a valid print command received exactly once while
connected, exactly one status message is published — always with status
`completed`, regardless of the local print outcome — when download and
save succeed; and no status at all is published when the download or the
save fails (the failure is only logged, never published). -/
theorem status_publish_characterization (env : Env) (uuid : String)
    (st : GuiState) (j : JobMsg) (jid : String)
    (hcmd : j.command = some "print") (hid : j.job_id = some jid)
    (hne : jid ≠ "") (hc : st.hasClient = true)
    (hm : st.mqtt_connected = true) :
    (∀ content : List Nat, env.fetch j.url = FetchResult.ok content →
      env.saveOk = true →
      countP (isPublishOf jid "completed")
        (processMessage env uuid st (ParseResult.parsed j)) = 1 ∧
      countP isAnyPublish
        (processMessage env uuid st (ParseResult.parsed j)) = 1) ∧
    (∀ e : String, env.fetch j.url = FetchResult.err e →
      countP isAnyPublish
        (processMessage env uuid st (ParseResult.parsed j)) = 0) ∧
    (∀ content : List Nat, env.fetch j.url = FetchResult.ok content →
      env.saveOk = false →
      countP isAnyPublish
        (processMessage env uuid st (ParseResult.parsed j)) = 0) := by
  refine ⟨?_, ?_, ?_⟩
  · intro content hfetch hsave
    have h := handle_print_job_publish_complete env uuid st j jid content hid
      hne hfetch hsave hc hm
    rw [processMessage_print env uuid st j hcmd, countP_cons, countP_cons,
      countP_cons, countP_cons, h.1, h.2]
    simp [isPublishOf, isAnyPublish]
  · intro e hfetch
    rw [processMessage_print env uuid st j hcmd, countP_cons, countP_cons,
      (handle_print_job_fetch_err env uuid st j e hfetch).2]
    simp [isAnyPublish]
  · intro content hfetch hsave
    rw [processMessage_print env uuid st j hcmd, countP_cons, countP_cons,
      handle_print_job_save_err env uuid st j content hfetch hsave]
    simp [isAnyPublish]

/-- Witness for the amended C3 at concrete environments. -/
theorem status_publish_characterization_witness :
    countP (isPublishOf "j1" "completed")
      (processMessage envOk "dev" stConn (ParseResult.parsed msgJ1)) = 1 ∧
    countP isAnyPublish
      (processMessage envFail "dev" stConn (ParseResult.parsed msgJ1)) = 0 := by
  refine ⟨?_, ?_⟩
  · exact ((status_publish_characterization envOk "dev" stConn msgJ1 "j1" rfl
      rfl (by decide) rfl rfl).1 [7] rfl rfl).1
  · exact (status_publish_characterization envFail "dev" stConn msgJ1 "j1" rfl
      rfl (by decide) rfl rfl).2.1 "boom" rfl

/-- C4 fails on the code: a print command whose url always fails to fetch
causes exactly one download attempt — there is no retry budget, no
`attempts` counter — and produces no status publish at all, in particular
no `Failed` report with `last_error`. -/
theorem single_fetch_attempt_cex :
    countP isFetchAttempt (handle_print_job envFail "d" stConn msgJ1) = 1 ∧
    countP isAnyPublish (handle_print_job envFail "d" stConn msgJ1) = 0 := by
  exact ⟨rfl, rfl⟩

/-- C4 amended: when the download of a print job raises, `_handle_print_job`
makes exactly one download attempt (no retry, no attempt counting), logs
the error, and returns without publishing any status — so the job never
reaches `Completed`, but no `Failed` status is reported either. -/
theorem single_fetch_no_retry (env : Env) (uuid : String) (st : GuiState)
    (j : JobMsg) (e : String) (hfetch : env.fetch j.url = FetchResult.err e) :
    countP isFetchAttempt (handle_print_job env uuid st j) = 1 ∧
    countP isAnyPublish (handle_print_job env uuid st j) = 0 :=
  handle_print_job_fetch_err env uuid st j e hfetch

/-- Witness for the amended C4 at a concrete always-failing url. -/
theorem single_fetch_no_retry_witness :
    countP isFetchAttempt (handle_print_job envFail "dev" stConn msgJ1) = 1 ∧
    countP isAnyPublish (handle_print_job envFail "dev" stConn msgJ1) = 0 :=
  single_fetch_no_retry envFail "dev" stConn msgJ1 "boom" rfl

/-- C5 fails on the code: a job finishing while the connection is down
publishes nothing — the report is not queued — and the subsequent
transition into Connected publishes nothing either, so over the whole
trace (message handled while disconnected, then reconnect) zero status
messages are ever published: the report is silently dropped, not retried. -/
theorem disconnected_publish_dropped_cex :
    countP isAnyPublish
      (runEvents envOk "d" stDisc
        [Event.message (ParseResult.parsed msgJ1), Event.connect]) = 0 := by
  exact rfl

/-- C5 amended: a status publish attempted while `mqtt_connected` is false
is skipped entirely (the guard in `_handle_print_job` fails and nothing is
queued), and the connect handler emits no publish, so the dropped report is
never retried on a later Connected transition. -/
theorem disconnected_publish_dropped (env : Env) (uuid : String)
    (st : GuiState) (j : JobMsg) (hm : st.mqtt_connected = false) :
    countP isAnyPublish
      (processMessage env uuid st (ParseResult.parsed j)) = 0 ∧
    ∀ st2 : GuiState,
      countP isAnyPublish (handleEvent env uuid st2 Event.connect).2 = 0 := by
  constructor
  · by_cases hcmd : j.command = some "print"
    · rw [processMessage_print env uuid st j hcmd, countP_cons, countP_cons,
        handle_print_job_disconnected env uuid st j hm]
      simp [isAnyPublish]
    · simp [processMessage, on_mqtt_message, hcmd, countP, isAnyPublish]
  · intro st2
    simp [handleEvent, countP, isAnyPublish]

/-- Witness for the amended C5 at a concrete disconnected state. -/
theorem disconnected_publish_dropped_witness :
    countP isAnyPublish
      (processMessage envOk "dev" stDisc (ParseResult.parsed msgJ1)) = 0 ∧
    countP isAnyPublish (handleEvent envOk "dev" stDisc Event.connect).2 = 0 := by
  have h := disconnected_publish_dropped envOk "dev" stDisc msgJ1 rfl
  exact ⟨h.1, h.2 stDisc⟩

/-- C6 fails on the code for its validation half: a parsed message with
`command = "print"` but an absent `job_id` and absent `url` is still handed
to execution (a job thread is spawned), contradicting "handed to execution
only when job_id is non-empty and url is a well-formed absolute
reference". -/
theorem print_command_unvalidated_cex :
    Action.spawnJob ⟨some "print", none, none⟩ ∈
      on_mqtt_message (ParseResult.parsed ⟨some "print", none, none⟩) := by
  decide

/-- C6 amended: a message that fails to parse is discarded and recorded
(logged) with no reply and no job created; a parsed message whose command
field is absent or not `"print"` is discarded with no reply and no job (and
the raw message was already recorded); a message recognized as `print` is
handed to execution unconditionally — no validation of `job_id` or `url`
is performed. -/
theorem dispatcher_characterization :
    (on_mqtt_message ParseResult.malformed =
      [Action.logEvt "MQTT msg",
       Action.logEvt "Failed to parse MQTT payload as JSON"]) ∧
    (∀ j : JobMsg, j.command ≠ some "print" →
      on_mqtt_message (ParseResult.parsed j) = [Action.logEvt "MQTT msg"]) ∧
    (∀ j : JobMsg, j.command = some "print" →
      on_mqtt_message (ParseResult.parsed j) =
        [Action.logEvt "MQTT msg", Action.spawnJob j]) := by
  refine ⟨rfl, ?_, ?_⟩
  · intro j hcmd
    simp [on_mqtt_message, hcmd]
  · intro j hcmd
    simp [on_mqtt_message, hcmd]

/-- Witness for the amended C6 at concrete messages. -/
theorem dispatcher_characterization_witness :
    on_mqtt_message (ParseResult.parsed ⟨some "print", none, none⟩) =
      [Action.logEvt "MQTT msg",
       Action.spawnJob ⟨some "print", none, none⟩] ∧
    on_mqtt_message (ParseResult.parsed ⟨some "status", some "j1", none⟩) =
      [Action.logEvt "MQTT msg"] :=
  ⟨dispatcher_characterization.2.2 ⟨some "print", none, none⟩ rfl,
   dispatcher_characterization.2.1 ⟨some "status", some "j1", none⟩ (by decide)⟩

/-- C7 fails on the code: the delay before a reconnect attempt is the
constant 5 seconds for every consecutive failure — it does not start at a
1s base, does not double, and there is nothing to reset. -/
theorem constant_reconnect_delay_cex :
    reconnectDelay 0 = 5 ∧ reconnectDelay 1 = 5 ∧ reconnectDelay 10 = 5 ∧
    ¬ reconnectDelay 1 = 2 * reconnectDelay 0 ∧ ¬ reconnectDelay 0 = 1 := by
  decide

/-- C7 amended: after every connection loss or connect failure the loop
waits the fixed `MQTT_RECONNECT_INTERVAL` of 5 seconds before the next
attempt, independent of how many failures preceded; there is no exponential
growth, no cap beyond the constant itself, and no reset behaviour. -/
theorem constant_reconnect_delay (n : Nat) :
    reconnectDelay n = MQTT_RECONNECT_INTERVAL ∧
    MQTT_RECONNECT_INTERVAL = 5 :=
  ⟨rfl, rfl⟩

/-- The session state after a successful `request_session_qr` (requested
with `lifetime = 300` at time 0) whose 200 response carried an
`upload_url` and a `token`. -/
def sessAfterReq : SessState :=
  (request_session_qr "http://h"
    (HttpResult.resp 200 (some ⟨some "U", none, none, none, some "T", none⟩))
    ⟨none, none⟩).st

/-- C8 fails on the code: the source stores neither issuance time nor
lifetime, so after a `request_session_qr` with lifetime 300 at time 0, the
held token and upload URL are still returned unchanged at time 301 (and at
any later time) — there is no `SessionExpired` failure. -/
theorem session_no_expiry_cex :
    sessAfterReq = ⟨some "U", some "T"⟩ ∧
    currentSessionAt sessAfterReq 301 = (some "U", some "T") ∧
    currentSessionAt sessAfterReq 1000000 = (some "U", some "T") := by
  refine ⟨?_, ?_, ?_⟩ <;> rfl

/-- C8 amended: reading the held session is a plain field access that
ignores the current time entirely: it returns the same stored token and
upload URL at every instant, before and after the requested lifetime, and
never fails; the broker never refreshes on its own (only another explicit
`request_session_qr` call can replace the stored session). -/
theorem session_read_time_independent (st : SessState) (t t2 : Nat) :
    currentSessionAt st t = (st.current_upload_url, st.last_session_token) ∧
    currentSessionAt st t = currentSessionAt st t2 :=
  ⟨rfl, rfl⟩

/-- C9: `request_session_qr` accepts the alias field names `uploadUrl`,
`qr`, and `session_token`; when the response carries no (truthy) upload URL
but does carry a token it synthesizes the stored upload URL as
`{api_base}/session_upload?token={token}` (with the API base rstripped of
trailing slashes); and the stored upload URL and token are left unchanged
on a request exception, any non-200 status, or a JSON parse failure — they
are overwritten only on the 200-with-valid-JSON path. -/
theorem session_response_handling (apiRaw : String) (st : SessState) :
    (∀ j : SessFields, truthyS j.upload_url = false →
      truthyS j.uploadUrl = true →
      (request_session_qr apiRaw (HttpResult.resp 200 (some j))
        st).st.current_upload_url = j.uploadUrl) ∧
    (∀ j : SessFields, truthyS j.token = false →
      (request_session_qr apiRaw (HttpResult.resp 200 (some j))
        st).st.last_session_token = j.session_token) ∧
    (∀ j : SessFields, truthyS j.qr_base64 = false →
      (request_session_qr apiRaw (HttpResult.resp 200 (some j))
        st).qrUsed = j.qr) ∧
    (∀ (j : SessFields) (tok : String), truthyS j.upload_url = false →
      truthyS j.uploadUrl = false → pyOr j.token j.session_token = some tok →
      tok ≠ "" →
      (request_session_qr apiRaw (HttpResult.resp 200 (some j))
        st).st.current_upload_url =
        some (rstripSlash apiRaw ++ "/session_upload?token=" ++ tok)) ∧
    (∀ (status : Nat) (body : Option SessFields), status ≠ 200 →
      (request_session_qr apiRaw (HttpResult.resp status body) st).st = st) ∧
    ((request_session_qr apiRaw (HttpResult.resp 200 none) st).st = st) ∧
    (∀ e : String,
      (request_session_qr apiRaw (HttpResult.netErr e) st).st = st) := by
  refine ⟨?_, ?_, ?_, ?_, ?_, ?_, ?_⟩
  · intro j h1 h2
    simp [request_session_qr, pyOr, h1, h2]
  · intro j h1
    simp [request_session_qr, pyOr, h1]
  · intro j h1
    simp [request_session_qr, pyOr, h1]
  · intro j tok h1 h2 h3 h4
    have e1 : pyOr j.upload_url j.uploadUrl = j.uploadUrl := by
      simp [pyOr, h1]
    have e2 : pyOr (pyOr j.upload_url j.uploadUrl) j.upload_url =
        j.upload_url := by
      rw [e1]; simp [pyOr, h2]
    have e4 : truthyS (some tok) = true := by simp [truthyS, h4]
    simp [request_session_qr, e2, h1, h3, e4]
  · intro status body h
    simp [request_session_qr, h]
  · simp [request_session_qr]
  · intro e
    simp [request_session_qr]

/-- Witness for C9: a 200 response carrying only the aliases `qr` and
`session_token` and no upload URL yields the synthesized upload URL, the
alias token, and the alias QR value. -/
theorem session_response_handling_witness :
    (request_session_qr "http://h/"
      (HttpResult.resp 200 (some ⟨none, none, none, some "QQ", none, some "T"⟩))
      ⟨none, none⟩).st.current_upload_url =
        some "http://h/session_upload?token=T" ∧
    (request_session_qr "http://h/"
      (HttpResult.resp 200 (some ⟨none, none, none, some "QQ", none, some "T"⟩))
      ⟨none, none⟩).st.last_session_token = some "T" ∧
    (request_session_qr "http://h/"
      (HttpResult.resp 204 none) ⟨some "old", some "tk"⟩).st =
      ⟨some "old", some "tk"⟩ := by
  have h := session_response_handling "http://h/" (⟨none, none⟩ : SessState)
  refine ⟨?_, ?_, ?_⟩
  · have hs := h.2.2.2.1 ⟨none, none, none, some "QQ", none, some "T"⟩ "T"
      rfl rfl rfl (by decide)
    rw [hs]
    rfl
  · exact h.2.1 ⟨none, none, none, some "QQ", none, some "T"⟩ rfl
  · exact (session_response_handling "http://h/"
      (⟨some "old", some "tk"⟩ : SessState)).2.2.2.2.1 204 none (by decide)

lemma string_data_ne_nil (s : String) (h : s ≠ "") : s.data ≠ [] := by
  intro hd
  apply h
  apply String.ext
  rw [hd]

lemma head_data_append (s t : String) (h : s ≠ "") :
    (s ++ t).data.head? = s.data.head? := by
  rw [String.data_append]
  cases hd : s.data with
  | nil => exact absurd hd (string_data_ne_nil s h)
  | cons c cs => simp

lemma osPathJoin_eq (a b : String) (hb : b.data.head? ≠ some '/')
    (ha : a.data.getLast? ≠ some '/') :
    osPathJoin a b = a ++ "/" ++ b := by
  rw [osPathJoin, if_neg hb, if_neg ha]

/-- C10: for every accepted print command carrying a non-empty (relative)
`job_id`, the downloaded bytes are written to a path built by direct
concatenation with the `job_id` taken verbatim and unsanitized:
`{tempdir}/{job_id}.bin` in the GUI client and `{job_id}.bin` (in the
current directory) in the bare client — the write location is determined
by the remote message content. -/
theorem save_path_concatenation (env : Env) (uuid : String) (st : GuiState)
    (j : JobMsg) (s : String) (content : List Nat)
    (hcmd : j.command = some "print") (hid : j.job_id = some s) (hne : s ≠ "")
    (habs : s.data.head? ≠ some '/')
    (htmp : env.tempdir.data.getLast? ≠ some '/')
    (hfetch : env.fetch j.url = FetchResult.ok content)
    (hsave : env.saveOk = true) :
    Action.save (env.tempdir ++ "/" ++ (s ++ ".bin")) content ∈
      handle_print_job env uuid st j ∧
    Action.save (s ++ ".bin") content ∈ DeviceClient.on_message env uuid j := by
  have hjoin : osPathJoin env.tempdir (s ++ ".bin") =
      env.tempdir ++ "/" ++ (s ++ ".bin") := by
    apply osPathJoin_eq
    · rw [head_data_append s ".bin" hne]
      exact habs
    · exact htmp
  constructor
  · simp only [handle_print_job]
    rw [hfetch]
    simp [pyOrD, hid, hne, hsave, hjoin]
    split_ifs <;> simp
  · simp [DeviceClient.on_message, hcmd, hfetch, hid]

/-- Witness for C10 at a concrete job `j1` with tempdir `/tmp`. -/
theorem save_path_concatenation_witness :
    Action.save "/tmp/j1.bin" [7] ∈ handle_print_job envOk "dev" stConn msgJ1 ∧
    Action.save "j1.bin" [7] ∈ DeviceClient.on_message envOk "dev" msgJ1 := by
  have h := save_path_concatenation envOk "dev" stConn msgJ1 "j1" [7] rfl rfl
    (by decide) (by decide) (by decide) rfl rfl
  have e1 : envOk.tempdir ++ "/" ++ ("j1" ++ ".bin") = "/tmp/j1.bin" := by
    decide
  have e2 : "j1" ++ ".bin" = "j1.bin" := by decide
  constructor
  · have h1 := h.1
    rw [e1] at h1
    exact h1
  · have h2 := h.2
    rw [e2] at h2
    exact h2

end ChetapPrint
